import Mathlib

/-
Verification of the request-routing and environment-composition model of the
docker-node-vue-postgres-nginx lab. The only program files present are the
README (documentation of compose.yaml, compose.prod.yaml, nginx.dev.conf,
nginx.prod.conf) and frontend/vite.config.js; the nginx/compose configuration
files themselves are absent, so the routing, configuration-loading, readiness
and persistence behaviour is modelled from the spec, while the Vite
development-server configuration is embedded directly from the source.
-/

namespace DockerLab

/-- Deployment mode, chosen once at composition time (compose.yaml gives
development, compose.prod.yaml gives production). -/
inductive Mode where
  | development
  | production
deriving DecidableEq, Repr

/-- Logical target services the edge router can dispatch to. -/
inductive Service where
  | backendApi
  | frontendDev
  | staticFiles
deriving DecidableEq, Repr

/-- Internal service endpoint: stable logical name plus port on app-net. -/
structure Endpoint where
  host : String
  port : Nat
deriving DecidableEq, Repr

/-- Endpoint of the Express API: the README states Nginx talks to the backend
via http://backend:3000. -/
def backendEndpoint : Endpoint := ⟨"backend", 3000⟩

/-- Endpoint of the Vite development server, reached by service name on port
5173 as documented in the README and vite.config.js. -/
def frontendEndpoint : Endpoint := ⟨"frontend", 5173⟩

/-- Canonical ingress port of the edge router. -/
def canonicalPort : Nat := 80

/-- Boolean string-prefix test, computed on the underlying character lists. -/
def hasPre (p s : String) : Bool := p.data.isPrefixOf s.data

/-- HTTP request as seen by the edge router. -/
structure Request where
  method : String
  path : String
  headers : List (String × String)
  body : String
  upgradeRequested : Bool
deriving DecidableEq, Repr

/-- HTTP response returned to the client. -/
structure Response where
  status : Nat
  body : String
deriving DecidableEq, Repr

/-- Route rule: a path prefix and the service it forwards to. -/
structure RouteRule where
  pathPre : String
  target : Service
deriving DecidableEq, Repr

/-- Modelled from the spec: the active rule set per mode; nginx.dev.conf and
nginx.prod.conf are absent from the sources, so the rules follow the README
network diagram (`/api/*` requests to the backend, `/` requests to the
frontend or the prebuilt static assets). -/
def activeRules : Mode → List RouteRule
  | .development => [⟨"/api/", .backendApi⟩, ⟨"/", .frontendDev⟩]
  | .production => [⟨"/api/", .backendApi⟩, ⟨"/", .staticFiles⟩]

/-- Modelled from the spec: first rule whose prefix matches the path, in
declared order. -/
def selectRule : List RouteRule → String → Option RouteRule
  | [], _ => none
  | r :: rs, p => if hasPre r.pathPre p then some r else selectRule rs p

/-- Rule chosen when the matching rules are ranked by prefix length instead of
declaration order; used to show both precedence policies agree here. -/
def longerRule (a b : RouteRule) : RouteRule :=
  if a.pathPre.length < b.pathPre.length then b else a

/-- Longest-prefix-match selection over a rule list. -/
def selectLongest (rules : List RouteRule) (p : String) : Option RouteRule :=
  match rules.filter (fun r => hasPre r.pathPre p) with
  | [] => none
  | r :: rs => some (rs.foldl longerRule r)

/-- Prebuilt static-asset set of the production image: path-indexed file
contents plus the canonical entry document (index.html). -/
structure AssetSet where
  files : List (String × String)
  entry : String
deriving DecidableEq, Repr

/-- Lookup of a static file by request path. -/
def lookupAsset : List (String × String) → String → Option String
  | [], _ => none
  | (p, c) :: rest, q => if p = q then some c else lookupAsset rest q

/-- Action the edge router decides on for one request. -/
inductive Action where
  | proxy (target : Endpoint) (upgraded : Bool) (forwarded : Request)
  | serveFile (content : String)
  | serveEntry
  | reject
deriving DecidableEq, Repr

/-- Modelled from the spec: the edge router's dispatch decision. API-prefixed
paths are proxied to the backend with the request unchanged; other paths go to
the Vite server in development (upgrading when requested, for HMR websockets)
and to the static asset set in production, falling back to the entry
document on a miss. -/
def route (m : Mode) (assets : AssetSet) (req : Request) : Action :=
  match selectRule (activeRules m) req.path with
  | none => .reject
  | some rule =>
    match rule.target with
    | .backendApi => .proxy backendEndpoint false req
    | .frontendDev => .proxy frontendEndpoint req.upgradeRequested req
    | .staticFiles =>
      match lookupAsset assets.files req.path with
      | some c => .serveFile c
      | none => .serveEntry

/-- Generic gateway-failure response: fixed status and body, mentioning no
internal address or stack detail. -/
def gatewayFailure : Response := ⟨502, "Bad Gateway"⟩

/-- Result of handling one request: the client response together with how many
upstream connection attempts were made. -/
structure Outcome where
  resp : Response
  upstreamAttempts : Nat
deriving DecidableEq, Repr

/-- Modelled from the spec: executing a routing action against the upstream
environment. An unreachable upstream (the function returns none) yields the
generic gateway failure after a single attempt, with no internal retry. -/
def perform (up : Endpoint → Request → Option Response) (assets : AssetSet) :
    Action → Outcome
  | .proxy e _ req =>
    match up e req with
    | some resp => ⟨resp, 1⟩
    | none => ⟨gatewayFailure, 1⟩
  | .serveFile c => ⟨⟨200, c⟩, 0⟩
  | .serveEntry => ⟨⟨200, assets.entry⟩, 0⟩
  | .reject => ⟨⟨400, "Bad Request"⟩, 0⟩

/-- Full treatment of one request by the edge router. -/
def handle (m : Mode) (assets : AssetSet)
    (up : Endpoint → Request → Option Response) (req : Request) : Outcome :=
  perform up assets (route m assets req)

/-- Modelled from the spec: sequential service of a request stream; no state
is carried from one request to the next. -/
def serveAll (m : Mode) (assets : AssetSet)
    (up : Endpoint → Request → Option Response) : List Request → List Response
  | [] => []
  | r :: rs => (handle m assets up r).resp :: serveAll m assets up rs

/-- Deployment-time composition inputs: the mode flag plus the externally
supplied named configuration values. -/
structure Composition where
  mode : Mode
  env : List (String × String)
deriving DecidableEq, Repr

/-- Rule set wired into the edge router by the composition layer. -/
def activeRuleSet (c : Composition) : List RouteRule := activeRules c.mode

/-- Lookup of a named configuration value in the environment. -/
def getEnv : List (String × String) → String → Option String
  | [], _ => none
  | (k1, v) :: rest, k => if k1 = k then some v else getEnv rest k

/-- Required database configuration values, as named in the README
(DB_HOST plus the POSTGRES credentials from .env). -/
def requiredConfigKeys : List String :=
  ["DB_HOST", "POSTGRES_USER", "POSTGRES_PASSWORD", "POSTGRES_DB"]

/-- Resolution of every required key against the environment; any absent key
makes the whole resolution fail. -/
def resolveAll : List String → List (String × String) →
    Option (List (String × String))
  | [], _ => some []
  | k :: ks, env =>
    match getEnv env k, resolveAll ks env with
    | some v, some rest => some ((k, v) :: rest)
    | _, _ => none

/-- Required keys absent from the environment, for the startup diagnostic. -/
def missingKeys (required : List String) (env : List (String × String)) :
    List String :=
  required.filter (fun k => (getEnv env k).isNone)

/-- Result of starting a component: either running with a bound port and the
resolved configuration, or exited with a status code and diagnostic. -/
inductive StartResult where
  | running (boundPort : Nat) (resolved : List (String × String))
  | exited (code : Nat) (diagnostic : String)
deriving DecidableEq, Repr

/-- Modelled from the spec: component startup (the backend's startup code is
absent from the sources). All required configuration values are resolved
before the listening port is bound; any absent value makes the component exit
with status 1 and a diagnostic naming the missing keys, never defaulting. -/
def startComponent (port : Nat) (required : List String)
    (env : List (String × String)) : StartResult :=
  match resolveAll required env with
  | some vals => .running port vals
  | none =>
    .exited 1 ("missing required configuration: " ++
      String.intercalate ", " (missingKeys required env))

/-- Modelled from the spec: the composition layer's bounded blocking wait for
the database readiness probe (the compose healthcheck is absent from the
sources). Time advances one probe per step; the fuel is the maximum wait. -/
def waitForReady (ready : Nat → Bool) : Nat → Nat → Option Nat
  | _, 0 => none
  | t, fuel + 1 => if ready t then some t else waitForReady ready (t + 1) fuel

/-- Outcome of the composition layer's startup gate for the API service. -/
inductive DeployOutcome where
  | apiStarted (startTime : Nat)
  | deploymentFailed
deriving DecidableEq, Repr

/-- Modelled from the spec: depends_on service_healthy gating of the API
service. The API is started only once the readiness probe passes, and the
whole deployment fails once the maximum wait is exhausted. -/
def gateApiStart (ready : Nat → Bool) (maxWait : Nat) : DeployOutcome :=
  match waitForReady ready 0 maxWait with
  | some t => .apiStarted t
  | none => .deploymentFailed

/-- Whether the API service accepts traffic at time t under the gate. -/
def apiAccepting (ready : Nat → Bool) (maxWait t : Nat) : Bool :=
  match gateApiStart ready maxWait with
  | .apiStarted t0 => decide (t0 ≤ t)
  | .deploymentFailed => false

/-- State of the database unit: whether the process runs and the records held
in the durable db-data volume. -/
structure DbState where
  running : Bool
  volume : List String
deriving DecidableEq, Repr

/-- Lifecycle actions on the database unit. Ordinary restart and shutdown are
distinct from the explicit destructive volume removal (docker compose
down -v). -/
inductive DbAction where
  | write (record : String)
  | restart
  | shutdown
  | downWithVolumes
deriving DecidableEq, Repr

/-- Modelled from the spec: effect of each lifecycle action on the database
unit. Only downWithVolumes touches the stored records. -/
def applyAction (s : DbState) : DbAction → DbState
  | .write r => { s with volume := s.volume ++ [r] }
  | .restart => { s with running := true }
  | .shutdown => { s with running := false }
  | .downWithVolumes => ⟨false, []⟩

/-- Hot-module-reload section of the Vite server configuration. -/
structure HmrConfig where
  clientPort : Nat
deriving DecidableEq, Repr

/-- Server section of the Vite configuration. -/
structure ServerConfig where
  host : String
  port : Nat
  hmr : HmrConfig
deriving DecidableEq, Repr

/-- Exported Vite configuration object. -/
structure ViteConfig where
  plugins : List String
  server : ServerConfig
deriving DecidableEq, Repr

/-- Embedding of frontend/vite.config.js: the object passed to defineConfig,
with the vue() plugin represented by its name. -/
def viteConfig : ViteConfig :=
  { plugins := ["vue"]
  , server :=
    { host := "0.0.0.0"
    , port := 5173
    , hmr := { clientPort := 80 } } }

/-- Resolution of a required-key list fails whenever one of its keys is
absent from the environment. -/
theorem resolveAll_none (ks : List String) (env : List (String × String))
    (k : String) (hk : k ∈ ks) (hmiss : getEnv env k = none) :
    resolveAll ks env = none := by
  induction ks with
  | nil => cases hk
  | cons a as ih =>
    cases hk with
    | head => simp [resolveAll, hmiss]
    | tail _ htail =>
      have hrest := ih htail
      cases hga : getEnv env a <;> simp [resolveAll, hga, hrest]

/-- Claim C1: for every request whose path matches the API prefix, in either
mode, the router forwards the request itself (method, headers, body
unchanged) to the backend endpoint, and when the upstream answers, its
response reaches the client unchanged. -/
theorem api_requests_forwarded_unchanged (m : Mode) (assets : AssetSet)
    (up : Endpoint → Request → Option Response) (req : Request)
    (resp : Response)
    (hapi : hasPre "/api/" req.path = true)
    (hup : up backendEndpoint req = some resp) :
    route m assets req = Action.proxy backendEndpoint false req ∧
    (handle m assets up req).resp = resp := by
  have hroute : route m assets req = Action.proxy backendEndpoint false req := by
    cases m <;> simp [route, activeRules, selectRule, hapi]
  exact ⟨hroute, by simp [handle, hroute, perform, hup]⟩

/-- Witness for C1 at a concrete GET /api/todos request. -/
theorem api_requests_forwarded_unchanged_witness :
    route Mode.development ⟨[], "index"⟩
        ⟨"GET", "/api/todos", [("Host", "localhost")], "", false⟩ =
      Action.proxy backendEndpoint false
        ⟨"GET", "/api/todos", [("Host", "localhost")], "", false⟩ ∧
    (handle Mode.development ⟨[], "index"⟩ (fun _ _ => some ⟨200, "ok"⟩)
        ⟨"GET", "/api/todos", [("Host", "localhost")], "", false⟩).resp =
      ⟨200, "ok"⟩ :=
  api_requests_forwarded_unchanged Mode.development ⟨[], "index"⟩
    (fun _ _ => some ⟨200, "ok"⟩)
    ⟨"GET", "/api/todos", [("Host", "localhost")], "", false⟩
    ⟨200, "ok"⟩ (by decide) rfl

/-- Claim C2: in production mode, a non-API path is served from the static
asset set with status 200 when a file exists at that path; otherwise the
canonical entry document is served with status 200, and the status is 200 in
every case, never a missing-resource error. -/
theorem prod_static_or_entry_fallback (assets : AssetSet)
    (up : Endpoint → Request → Option Response) (req : Request)
    (hnapi : hasPre "/api/" req.path = false)
    (hroot : hasPre "/" req.path = true) :
    (∀ c, lookupAsset assets.files req.path = some c →
      handle Mode.production assets up req = ⟨⟨200, c⟩, 0⟩) ∧
    (lookupAsset assets.files req.path = none →
      handle Mode.production assets up req = ⟨⟨200, assets.entry⟩, 0⟩) ∧
    (handle Mode.production assets up req).resp.status = 200 := by
  refine ⟨?_, ?_, ?_⟩
  · intro c hc
    simp [handle, route, activeRules, selectRule, hnapi, hroot, hc, perform]
  · intro hc
    simp [handle, route, activeRules, selectRule, hnapi, hroot, hc, perform]
  · cases hc : lookupAsset assets.files req.path <;>
      simp [handle, route, activeRules, selectRule, hnapi, hroot, hc, perform]

/-- Witness for C2 at a concrete asset set holding /app.js, checked on a hit
path with the production handler. -/
theorem prod_static_or_entry_fallback_witness :
    (∀ c, lookupAsset [("/app.js", "js-bundle")] "/app.js" = some c →
      handle Mode.production ⟨[("/app.js", "js-bundle")], "index-doc"⟩
        (fun _ _ => none) ⟨"GET", "/app.js", [], "", false⟩ = ⟨⟨200, c⟩, 0⟩) ∧
    (lookupAsset [("/app.js", "js-bundle")] "/app.js" = none →
      handle Mode.production ⟨[("/app.js", "js-bundle")], "index-doc"⟩
        (fun _ _ => none) ⟨"GET", "/app.js", [], "", false⟩ =
        ⟨⟨200, "index-doc"⟩, 0⟩) ∧
    (handle Mode.production ⟨[("/app.js", "js-bundle")], "index-doc"⟩
      (fun _ _ => none) ⟨"GET", "/app.js", [], "", false⟩).resp.status = 200 :=
  prod_static_or_entry_fallback ⟨[("/app.js", "js-bundle")], "index-doc"⟩
    (fun _ _ => none) ⟨"GET", "/app.js", [], "", false⟩ (by decide) (by decide)

/-- Claim C3: if any required configuration value is absent from the
environment, the component exits with status 1 and never reaches the running
state that binds its listening port. -/
theorem missing_config_fails_fast (env : List (String × String)) (k : String)
    (hk : k ∈ requiredConfigKeys) (hmiss : getEnv env k = none) :
    (∃ d, startComponent 3000 requiredConfigKeys env =
      StartResult.exited 1 d) ∧
    ∀ p vals, startComponent 3000 requiredConfigKeys env ≠
      StartResult.running p vals := by
  have hres : resolveAll requiredConfigKeys env = none :=
    resolveAll_none requiredConfigKeys env k hk hmiss
  constructor
  · unfold startComponent
    rw [hres]
    exact ⟨_, rfl⟩
  · intro p vals h
    simp [startComponent, hres] at h

/-- Witness for C3: an environment carrying only DB_HOST is missing
POSTGRES_PASSWORD and the component exits instead of binding a port. -/
theorem missing_config_fails_fast_witness :
    (∃ d, startComponent 3000 requiredConfigKeys [("DB_HOST", "db")] =
      StartResult.exited 1 d) ∧
    ∀ p vals, startComponent 3000 requiredConfigKeys [("DB_HOST", "db")] ≠
      StartResult.running p vals :=
  missing_config_fails_fast [("DB_HOST", "db")] "POSTGRES_PASSWORD"
    (by decide) (by decide)

/-- Success of the bounded wait implies the probe passed at the returned
time, which is no earlier than the starting time. -/
theorem waitForReady_some (ready : Nat → Bool) :
    ∀ (fuel t0 t : Nat), waitForReady ready t0 fuel = some t →
      t0 ≤ t ∧ ready t = true := by
  intro fuel
  induction fuel with
  | zero =>
    intro t0 t h
    simp [waitForReady] at h
  | succ n ih =>
    intro t0 t h
    by_cases hr : ready t0 = true
    · simp [waitForReady, hr] at h
      subst h
      exact ⟨le_refl _, hr⟩
    · simp [waitForReady, hr] at h
      obtain ⟨h1, h2⟩ := ih (t0 + 1) t h
      exact ⟨by omega, h2⟩

/-- Failure of the probe throughout the window makes the bounded wait fail. -/
theorem waitForReady_none (ready : Nat → Bool) :
    ∀ (fuel t0 : Nat), (∀ s, t0 ≤ s → s < t0 + fuel → ready s = false) →
      waitForReady ready t0 fuel = none := by
  intro fuel
  induction fuel with
  | zero =>
    intro t0 _
    simp [waitForReady]
  | succ n ih =>
    intro t0 h
    have h0 : ready t0 = false := h t0 (le_refl t0) (by omega)
    simp [waitForReady, h0]
    exact ih (t0 + 1) (fun s hs1 hs2 => h s (by omega) (by omega))

/-- Claim C4: while the database readiness probe has not yet passed, the API
service accepts no traffic; the gate is an explicit readiness check, so an
API start implies the probe passed at the start time; and if the probe never
passes within the maximum wait the whole deployment fails. -/
theorem api_gated_on_db_readiness (ready : Nat → Bool) (maxWait t : Nat)
    (hnot : ∀ s, s ≤ t → ready s = false) :
    apiAccepting ready maxWait t = false ∧
    ((∀ s, s < maxWait → ready s = false) →
      gateApiStart ready maxWait = DeployOutcome.deploymentFailed) ∧
    (∀ t0, gateApiStart ready maxWait = DeployOutcome.apiStarted t0 →
      ready t0 = true) := by
  refine ⟨?_, ?_, ?_⟩
  · unfold apiAccepting gateApiStart
    cases hw : waitForReady ready 0 maxWait with
    | none => simp
    | some t1 =>
      obtain ⟨-, hrt⟩ := waitForReady_some ready maxWait 0 t1 hw
      simp only [decide_eq_false_iff_not]
      intro hle
      rw [hnot t1 hle] at hrt
      exact Bool.noConfusion hrt
  · intro hall
    unfold gateApiStart
    rw [waitForReady_none ready maxWait 0 (fun s _ hs => hall s (by omega))]
  · intro t0 hg
    unfold gateApiStart at hg
    cases hw : waitForReady ready 0 maxWait with
    | none =>
      rw [hw] at hg
      exact DeployOutcome.noConfusion hg
    | some t1 =>
      rw [hw] at hg
      simp at hg
      subst hg
      exact (waitForReady_some ready maxWait 0 _ hw).2

/-- Witness for C4 with a probe that passes at time 3, a maximum wait of 10
and the pre-readiness time 2. -/
theorem api_gated_on_db_readiness_witness :
    apiAccepting (fun s => decide (3 ≤ s)) 10 2 = false ∧
    ((∀ s, s < 10 → (fun s => decide (3 ≤ s)) s = false) →
      gateApiStart (fun s => decide (3 ≤ s)) 10 =
        DeployOutcome.deploymentFailed) ∧
    (∀ t0, gateApiStart (fun s => decide (3 ≤ s)) 10 =
      DeployOutcome.apiStarted t0 → (fun s => decide (3 ≤ s)) t0 = true) :=
  api_gated_on_db_readiness (fun s => decide (3 ≤ s)) 10 2 (by decide)

/-- Claim C5: ordinary restart or shutdown of the database unit leaves every
stored record intact — so does any action other than the explicit destructive
volume removal, including the write-restart-read scenario — and the
destructive removal empties the volume. -/
theorem volume_survives_restart (s : DbState) (a : DbAction) (r : String)
    (hr : r ∈ s.volume) (ha : a ≠ DbAction.downWithVolumes) :
    r ∈ (applyAction s a).volume ∧
    r ∈ (applyAction (applyAction s (DbAction.write r))
      DbAction.restart).volume ∧
    (applyAction s DbAction.downWithVolumes).volume = [] := by
  refine ⟨?_, ?_, rfl⟩
  · cases a with
    | write r2 =>
      simp [applyAction]
      exact Or.inl hr
    | restart => exact hr
    | shutdown => exact hr
    | downWithVolumes => exact absurd rfl ha
  · simp [applyAction]

/-- Witness for C5 at a running store holding one record, restarted. -/
theorem volume_survives_restart_witness :
    "buy milk" ∈ (applyAction ⟨true, ["buy milk"]⟩ DbAction.restart).volume ∧
    "buy milk" ∈ (applyAction (applyAction ⟨true, ["buy milk"]⟩
      (DbAction.write "buy milk")) DbAction.restart).volume ∧
    (applyAction ⟨true, ["buy milk"]⟩ DbAction.downWithVolumes).volume = [] :=
  volume_survives_restart ⟨true, ["buy milk"]⟩ DbAction.restart "buy milk"
    (by decide) (by decide)

/-- Claim C6: a proxy action against an unreachable upstream produces exactly
the generic gateway-failure response — the same constant whatever the target
endpoint, so no internal address or stack detail can appear — after a single
upstream attempt, with no internal retry. -/
theorem unreachable_upstream_gateway_failure (assets : AssetSet)
    (up : Endpoint → Request → Option Response) (e : Endpoint) (g : Bool)
    (req : Request) (h : up e req = none) :
    perform up assets (Action.proxy e g req) = ⟨gatewayFailure, 1⟩ ∧
    (perform up assets (Action.proxy e g req)).resp.status = 502 ∧
    (perform up assets (Action.proxy e g req)).resp.body = "Bad Gateway" ∧
    (perform up assets (Action.proxy e g req)).upstreamAttempts = 1 := by
  have hp : perform up assets (Action.proxy e g req) = ⟨gatewayFailure, 1⟩ := by
    simp [perform, h]
  exact ⟨hp, by simp [hp, gatewayFailure], by simp [hp, gatewayFailure],
    by simp [hp]⟩

/-- Witness for C6 with an upstream that never answers, at the frontend
endpoint. -/
theorem unreachable_upstream_gateway_failure_witness :
    perform (fun _ _ => none) ⟨[], "index"⟩
      (Action.proxy frontendEndpoint true ⟨"GET", "/", [], "", true⟩) =
      ⟨gatewayFailure, 1⟩ ∧
    (perform (fun _ _ => none) ⟨[], "index"⟩
      (Action.proxy frontendEndpoint true
        ⟨"GET", "/", [], "", true⟩)).resp.status = 502 ∧
    (perform (fun _ _ => none) ⟨[], "index"⟩
      (Action.proxy frontendEndpoint true
        ⟨"GET", "/", [], "", true⟩)).resp.body = "Bad Gateway" ∧
    (perform (fun _ _ => none) ⟨[], "index"⟩
      (Action.proxy frontendEndpoint true
        ⟨"GET", "/", [], "", true⟩)).upstreamAttempts = 1 :=
  unreachable_upstream_gateway_failure ⟨[], "index"⟩ (fun _ _ => none)
    frontendEndpoint true ⟨"GET", "/", [], "", true⟩ rfl

/-- Claim C7: for every request path and each mode, rule selection picks
exactly one rule of the active set, and the two candidate precedence policies
— first-match in declared order and longest-prefix-match — agree on every
path, so the precedence between the overlapping general and API prefixes is
resolved by a single fixed policy. -/
theorem exactly_one_rule_selected (m : Mode) (p : String)
    (hroot : hasPre "/" p = true) :
    (∃ r, selectRule (activeRules m) p = some r ∧
      ∀ r2, selectRule (activeRules m) p = some r2 → r2 = r) ∧
    selectRule (activeRules m) p = selectLongest (activeRules m) p := by
  have hagree :
      selectRule (activeRules m) p = selectLongest (activeRules m) p := by
    cases m <;> cases hapi : hasPre "/api/" p <;>
      simp [activeRules, selectRule, selectLongest, longerRule, hapi,
        hroot] <;> decide
  have hsome : ∃ r, selectRule (activeRules m) p = some r := by
    cases m <;> cases hapi : hasPre "/api/" p <;>
      simp [activeRules, selectRule, hapi, hroot]
  obtain ⟨r, hr⟩ := hsome
  refine ⟨⟨r, hr, ?_⟩, hagree⟩
  intro r2 h2
  rw [hr] at h2
  exact (Option.some.inj h2).symm

/-- Witness for C7 at the path /api/todos in production mode, where both the
API prefix and the general prefix match. -/
theorem exactly_one_rule_selected_witness :
    (∃ r, selectRule (activeRules Mode.production) "/api/todos" = some r ∧
      ∀ r2, selectRule (activeRules Mode.production) "/api/todos" = some r2 →
        r2 = r) ∧
    selectRule (activeRules Mode.production) "/api/todos" =
      selectLongest (activeRules Mode.production) "/api/todos" :=
  exactly_one_rule_selected Mode.production "/api/todos" (by decide)

/-- Claim C8: the mode flag alone determines the active rule set (two
compositions with equal modes share the rule set whatever their other
configuration); serving a request stream is the independent per-request map
of the handler, so no state flows between requests; and rule selection
depends only on the request path, so repeated requests to the same path are
routed identically. -/
theorem routing_mode_only_and_deterministic (c1 c2 : Composition) (m : Mode)
    (assets : AssetSet) (up : Endpoint → Request → Option Response)
    (reqs : List Request) (r1 r2 : Request)
    (hmode : c1.mode = c2.mode) (hpath : r1.path = r2.path) :
    activeRuleSet c1 = activeRuleSet c2 ∧
    serveAll m assets up reqs =
      reqs.map (fun r => (handle m assets up r).resp) ∧
    selectRule (activeRules m) r1.path = selectRule (activeRules m) r2.path := by
  refine ⟨by simp [activeRuleSet, hmode], ?_, by rw [hpath]⟩
  induction reqs with
  | nil => rfl
  | cons r rs ih => simp [serveAll, ih]

/-- Witness for C8 with two compositions differing only in their environment,
a two-request stream, and two requests differing in everything but the
path. -/
theorem routing_mode_only_and_deterministic_witness :
    activeRuleSet ⟨Mode.development, []⟩ =
      activeRuleSet ⟨Mode.development, [("POSTGRES_DB", "appdb")]⟩ ∧
    serveAll Mode.production ⟨[], "index"⟩ (fun _ _ => none)
        [⟨"GET", "/", [], "", false⟩, ⟨"GET", "/api/todos", [], "", false⟩] =
      List.map (fun r => (handle Mode.production ⟨[], "index"⟩
        (fun _ _ => none) r).resp)
        [⟨"GET", "/", [], "", false⟩, ⟨"GET", "/api/todos", [], "", false⟩] ∧
    selectRule (activeRules Mode.production)
        (Request.path ⟨"GET", "/x", [], "", false⟩) =
      selectRule (activeRules Mode.production)
        (Request.path ⟨"POST", "/x", [("A", "b")], "body", true⟩) :=
  routing_mode_only_and_deterministic ⟨Mode.development, []⟩
    ⟨Mode.development, [("POSTGRES_DB", "appdb")]⟩ Mode.production
    ⟨[], "index"⟩ (fun _ _ => none)
    [⟨"GET", "/", [], "", false⟩, ⟨"GET", "/api/todos", [], "", false⟩]
    ⟨"GET", "/x", [], "", false⟩ ⟨"POST", "/x", [("A", "b")], "body", true⟩
    rfl rfl

/-- Claim C9: in development mode, a request whose path does not match the
API prefix is proxied to the frontend live-reload endpoint, carrying the
request unchanged; the connection is upgraded exactly when the request asks
for a protocol upgrade. -/
theorem dev_non_api_to_frontend (assets : AssetSet) (req : Request)
    (hnapi : hasPre "/api/" req.path = false)
    (hroot : hasPre "/" req.path = true) :
    route Mode.development assets req =
      Action.proxy frontendEndpoint req.upgradeRequested req ∧
    (req.upgradeRequested = true →
      route Mode.development assets req =
        Action.proxy frontendEndpoint true req) := by
  have h : route Mode.development assets req =
      Action.proxy frontendEndpoint req.upgradeRequested req := by
    simp [route, activeRules, selectRule, hnapi, hroot]
  exact ⟨h, fun hu => by rw [h, hu]⟩

/-- Witness for C9 at a websocket upgrade request for the root path. -/
theorem dev_non_api_to_frontend_witness :
    route Mode.development ⟨[], "index"⟩ ⟨"GET", "/", [], "", true⟩ =
      Action.proxy frontendEndpoint
        (Request.upgradeRequested ⟨"GET", "/", [], "", true⟩)
        ⟨"GET", "/", [], "", true⟩ ∧
    (Request.upgradeRequested ⟨"GET", "/", [], "", true⟩ = true →
      route Mode.development ⟨[], "index"⟩ ⟨"GET", "/", [], "", true⟩ =
        Action.proxy frontendEndpoint true ⟨"GET", "/", [], "", true⟩) :=
  dev_non_api_to_frontend ⟨[], "index"⟩ ⟨"GET", "/", [], "", true⟩
    (by decide) (by decide)

/-- Claim C10: the exported Vite configuration fixes the development server
endpoint as compile-time constants — host 0.0.0.0, port 5173 — and points the
hot-module-reload client at the edge router's canonical port 80 rather than
at the development server's own port. -/
theorem vite_server_constants :
    viteConfig.server.host = "0.0.0.0" ∧
    viteConfig.server.port = 5173 ∧
    viteConfig.server.hmr.clientPort = 80 ∧
    viteConfig.server.hmr.clientPort = canonicalPort ∧
    viteConfig.server.hmr.clientPort ≠ viteConfig.server.port :=
  ⟨rfl, rfl, rfl, rfl, by decide⟩

end DockerLab
